import Mathlib

/-!
Verification of the cfnrc correlation core: a shallow embedding of the Go
packages `correlator`, `cloudtrail` and `extractor` (the parts reachable from
the correlation claims), with theorems settling the specification claims.

Modelling conventions:
* `time.Time` instants and `time.Duration` values are modelled as `Int`
  (an abstract tick count); `absTimeDiff` mirrors the Go helper.
* Go's `map[string]interface{}` is modelled as an association list
  `List (String × Jval)` where `Jval` is a tagged JSON-like value; a `nil`
  map is `Option.none`.  Go map lookup is `List.lookup` (first binding wins;
  Go maps have unique keys so this is faithful).  The one place the code
  iterates over map *values* (`matchesResourceIdentifier`) only asks whether
  some value satisfies a predicate, which is iteration-order independent.
* Go type assertions `v.(string)` / `v.(map[string]interface{})` become
  pattern matches on the `Jval` constructor.
-/

namespace Cfnrc

/-- JSON-like value stored in a CloudTrail event's maps
(`interface{}` in the Go source): string, number, boolean,
nested mapping, list, or null.  Numbers are carried opaquely
(the code never computes with them, only type-tests). -/
inductive Jval where
  | str (s : String)
  | num (n : Int)
  | bool (b : Bool)
  | obj (fields : List (String × Jval))
  | arr (elems : List Jval)
  | null
deriving Repr

/-- Embedding of `analyzer.StackError` from analyzer/analyzer.go. -/
structure StackError where
  Timestamp : Int
  ResourceType : String
  LogicalResourceId : String
  ResourceStatus : String
  ResourceStatusReason : String
  EventId : String
  IsGeneralServiceException : Bool
deriving Repr

/-- Embedding of `analyzer.CloudTrailEvent` from analyzer/analyzer.go.  The two maps are
`Option`s: `none` models a Go `nil` map. -/
structure CloudTrailEvent where
  EventTime : Int
  EventName : String
  EventSource : String
  UserIdentity : Option (List (String × Jval))
  ResponseElements : Option (List (String × Jval))
  ErrorCode : String
  ErrorMessage : String
deriving Repr

/-- Embedding of `analyzer.CorrelatedError` from analyzer/analyzer.go. -/
structure CorrelatedError where
  stackError : StackError
  cloudTrailEvent : Option CloudTrailEvent
  detailedMessage : String
deriving Repr

/-- Embedding of `correlator.CorrelationConfig`. -/
structure CorrelationConfig where
  TimeWindow : Int
deriving Repr

/-- Character-list version of "starts with" used to build substring search. -/
def charsStartWith : List Char → List Char → Bool
  | [], _ => true
  | _ :: _, [] => false
  | a :: as, b :: bs => a == b && charsStartWith as bs

/-- Character-list substring occurrence: does `sub` occur inside the second
argument (contiguously)?  Mirrors Go `strings.Contains`. -/
def charsContains (sub : List Char) : List Char → Bool
  | [] => sub.isEmpty
  | c :: rest => charsStartWith sub (c :: rest) || charsContains sub rest

/-- Go `strings.Contains s sub`. -/
def strContains (s sub : String) : Bool :=
  charsContains sub.data s.data

/-- Go `strings.ToLower` (character-wise lower-casing; all strings the code
compares are ASCII, where Go and `Char.toLower` agree). -/
def strToLower (s : String) : String :=
  ⟨s.data.map Char.toLower⟩

/-- Splitting a character list around each non-overlapping `"::"`
occurrence, leftmost first. -/
def splitOnColons : List Char → List (List Char)
  | [] => [[]]
  | ':' :: ':' :: rest => [] :: splitOnColons rest
  | c :: rest =>
    match splitOnColons rest with
    | curr :: parts => (c :: curr) :: parts
    | [] => [[c]]

/-- Go `strings.Split s "::"`: the substrings between `"::"` separators
(`[""]` on the empty string, matching Go). -/
def splitOnDoubleColon (s : String) : List String :=
  (splitOnColons s.data).map (fun cs => ⟨cs⟩)

/-- Go `absTimeDiff` from correlator/correlator.go: absolute difference of
two instants, as a duration. -/
def absTimeDiff (t1 t2 : Int) : Int :=
  if t1 - t2 < 0 then -(t1 - t2) else t1 - t2

/-- Go type assertion `v.(string)` on an optional map entry. -/
def jAsString : Option Jval → Option String
  | some (Jval.str s) => some s
  | _ => none

/-- Go type assertion `v.(map[string]interface{})` on an optional map entry. -/
def jAsObj : Option Jval → Option (List (String × Jval))
  | some (Jval.obj fs) => some fs
  | _ => none

/-- One step of the Go pattern
`if msg, ok := m[k].(string); ok && msg != "" { return msg }`:
the non-empty string bound at key `k`, if any. -/
def tryStr (m : List (String × Jval)) (k : String) : Option String :=
  match jAsString (List.lookup k m) with
  | some s => if s ≠ "" then some s else none
  | none => none

/-- Embedding of `extractMessageFromResponseElements` from correlator/correlator.go
(text-identical to cloudtrail.ExtractMessageFromResponseElements):
priority search for a non-empty message string. -/
def extractMessageFromResponseElements : Option (List (String × Jval)) → String
  | none => ""
  | some re =>
    match tryStr re "message" with
    | some s => s
    | none =>
    match tryStr re "Message" with
    | some s => s
    | none =>
    match
      (match jAsObj (List.lookup "error" re) with
       | some eo =>
         (match tryStr eo "message" with
          | some s => some s
          | none => tryStr eo "Message")
       | none => none) with
    | some s => s
    | none =>
    match jAsObj (List.lookup "Error" re) with
    | some eo =>
      (match tryStr eo "message" with
       | some s => s
       | none =>
         match tryStr eo "Message" with
         | some s => s
         | none => "")
    | none => ""

/-- Embedding of `hasErrorInformation` from correlator/correlator.go. -/
def hasErrorInformation (event : CloudTrailEvent) : Bool :=
  if event.ErrorCode ≠ "" ∨ event.ErrorMessage ≠ "" then true
  else
    match event.ResponseElements with
    | some re => extractMessageFromResponseElements (some re) ≠ ""
    | none => false

/-- Embedding of `extractDetailedMessage` from correlator/correlator.go. -/
def extractDetailedMessage (event : CloudTrailEvent) : String :=
  if event.ErrorMessage ≠ "" then event.ErrorMessage
  else
    match event.ResponseElements with
    | some re =>
      let msg := extractMessageFromResponseElements (some re)
      if msg ≠ "" then msg
      else if event.ErrorCode ≠ "" then "Error code: " ++ event.ErrorCode
      else ""
    | none =>
      if event.ErrorCode ≠ "" then "Error code: " ++ event.ErrorCode
      else ""

/-- Embedding of `matchesResourceIdentifier` from correlator/correlator.go. -/
def matchesResourceIdentifier (cfnError : StackError)
    (trailEvent : CloudTrailEvent) : Bool :=
  if cfnError.LogicalResourceId = "" then false
  else
    let resourceId := strToLower cfnError.LogicalResourceId
    if strContains (strToLower trailEvent.EventName) resourceId then true
    else if strContains (strToLower trailEvent.ErrorMessage) resourceId then true
    else
      match trailEvent.ResponseElements with
      | some re =>
        re.any (fun kv =>
          match kv.2 with
          | Jval.str strVal => strContains (strToLower strVal) resourceId
          | _ => false)
      | none => false

/-- Embedding of `matchesResourceType` from correlator/correlator.go: second `::`-segment
of the lower-cased resource type as substring of the lower-cased event
source.  No service renaming is applied here. -/
def matchesResourceType (cfnError : StackError)
    (trailEvent : CloudTrailEvent) : Bool :=
  if cfnError.ResourceType = "" ∨ trailEvent.EventSource = "" then false
  else
    let resourceType := strToLower cfnError.ResourceType
    let eventSource := strToLower trailEvent.EventSource
    match splitOnDoubleColon resourceType with
    | _ :: p1 :: _ => strContains eventSource (strToLower p1)
    | _ => false

/-- Embedding of `calculateMatchScore` from correlator/correlator.go. -/
def calculateMatchScore (cfnError : StackError)
    (trailEvent : CloudTrailEvent) : Nat :=
  if !hasErrorInformation trailEvent then 0
  else
    1 + (if matchesResourceIdentifier cfnError trailEvent then 3 else 0)
      + (if matchesResourceType cfnError trailEvent then 2 else 0)

/-- Loop state of `FindMatchingTrailEventWithConfig`. -/
structure BestState where
  bestMatch : Option CloudTrailEvent
  bestScore : Nat
  bestTimeDiff : Int

/-- One iteration of the `FindMatchingTrailEventWithConfig` loop. -/
def findStep (cfnError : StackError) (config : CorrelationConfig)
    (st : BestState) (event : CloudTrailEvent) : BestState :=
  let timeDiff := absTimeDiff cfnError.Timestamp event.EventTime
  if timeDiff > config.TimeWindow then st
  else
    let score := calculateMatchScore cfnError event
    if score = 0 then st
    else if score > st.bestScore ∨
        (score = st.bestScore ∧ timeDiff < st.bestTimeDiff) then
      { bestMatch := some event, bestScore := score, bestTimeDiff := timeDiff }
    else st

/-- Embedding of `FindMatchingTrailEventWithConfig` from correlator/correlator.go. -/
def FindMatchingTrailEventWithConfig (cfnError : StackError)
    (trailEvents : List CloudTrailEvent) (config : CorrelationConfig) :
    Option CloudTrailEvent :=
  if trailEvents.isEmpty then none
  else
    (trailEvents.foldl (findStep cfnError config)
      { bestMatch := none, bestScore := 0,
        bestTimeDiff := config.TimeWindow + 1 }).bestMatch

/-- Body of the `CorrelateErrorsWithConfig` loop: the correlated result built
for one stack error. -/
def correlateOne (trailEvents : List CloudTrailEvent)
    (config : CorrelationConfig) (cfnError : StackError) : CorrelatedError :=
  match FindMatchingTrailEventWithConfig cfnError trailEvents config with
  | some matchingEvent =>
    let detailedMsg := extractDetailedMessage matchingEvent
    { stackError := cfnError
      cloudTrailEvent := some matchingEvent
      detailedMessage :=
        if detailedMsg ≠ "" then detailedMsg
        else cfnError.ResourceStatusReason }
  | none =>
    { stackError := cfnError
      cloudTrailEvent := none
      detailedMessage := cfnError.ResourceStatusReason }

/-- Embedding of `CorrelateErrorsWithConfig` from correlator/correlator.go. -/
def CorrelateErrorsWithConfig (cfnErrors : List StackError)
    (trailEvents : List CloudTrailEvent) (config : CorrelationConfig) :
    List CorrelatedError :=
  cfnErrors.map (correlateOne trailEvents config)

/-- Embedding of `generalServiceExceptionPatterns` from the extractor package. -/
def generalServiceExceptionPatterns : List String :=
  ["GeneralServiceException", "General Service Exception",
   "Internal Failure", "InternalFailure", "Service returned error"]

/-- Embedding of `IsGeneralServiceException` from the extractor package. -/
def IsGeneralServiceException (err : StackError) : Bool :=
  let reason := err.ResourceStatusReason
  if reason = "" then false
  else
    generalServiceExceptionPatterns.any
      (fun pattern => strContains (strToLower reason) (strToLower pattern))

/-- Embedding of `extractServiceName` from cloudtrail/cloudtrail.go: second `::`-segment
lower-cased, with the one known renaming `wisdom ↦ qconnect`. -/
def extractServiceName (resourceType : String) : String :=
  match splitOnDoubleColon resourceType with
  | _ :: p1 :: _ =>
    let serviceName := strToLower p1
    if serviceName = "wisdom" then "qconnect" else serviceName
  | _ => ""

/-- Embedding of `matchesService` from cloudtrail/cloudtrail.go. -/
def matchesService (event : CloudTrailEvent) (serviceName : String) : Bool :=
  strContains (strToLower event.EventSource) (strToLower serviceName)

/-- Spec-side rendering of §4.1 (for the refinement comparison with
`extractMessageFromResponseElements`): the string bound at top-level key `k`
if it is a string, else `""`. -/
def specStrAt (re : List (String × Jval)) (k : String) : String :=
  match List.lookup k re with
  | some (Jval.str s) => s
  | _ => ""

/-- Spec-side: the string bound at key `k` inside the nested object at key
`ko`, `""` when `ko` is absent or not bound to a nested object. -/
def specNestedStrAt (re : List (String × Jval)) (ko k : String) : String :=
  match List.lookup ko re with
  | some (Jval.obj eo) => specStrAt eo k
  | _ => ""

/-- First non-empty string of a candidate list, `""` if all are empty. -/
def firstNonEmpty : List String → String
  | [] => ""
  | s :: rest => if s ≠ "" then s else firstNonEmpty rest

/-- Rendering of `extractMessage` as §4.1 of the spec words it: the first non-empty
candidate in the fixed priority order `message`, `Message`, `error.message`,
`error.Message`, `Error.message`, `Error.Message`. -/
def extractMessageSpec : Option (List (String × Jval)) → String
  | none => ""
  | some re =>
    firstNonEmpty
      [specStrAt re "message", specStrAt re "Message",
       specNestedStrAt re "error" "message",
       specNestedStrAt re "error" "Message",
       specNestedStrAt re "Error" "message",
       specNestedStrAt re "Error" "Message"]

/-- A candidate pair in the sense of §4.4: the event is inside the
configured time window of the failure and the Match Scorer gives it a
positive score. -/
def IsCandidate (cfnError : StackError) (config : CorrelationConfig)
    (event : CloudTrailEvent) : Prop :=
  absTimeDiff cfnError.Timestamp event.EventTime ≤ config.TimeWindow ∧
  0 < calculateMatchScore cfnError event

instance (cfnError : StackError) (config : CorrelationConfig)
    (event : CloudTrailEvent) : Decidable (IsCandidate cfnError config event) :=
  inferInstanceAs (Decidable (_ ∧ _))

/-- Relation stating `a` beats `b` strictly in the selection order: higher score, or equal
score and strictly smaller absolute time difference to the failure. -/
def StrictlyPreferred (cfnError : StackError) (a b : CloudTrailEvent) : Prop :=
  calculateMatchScore cfnError b < calculateMatchScore cfnError a ∨
  (calculateMatchScore cfnError a = calculateMatchScore cfnError b ∧
   absTimeDiff cfnError.Timestamp a.EventTime <
     absTimeDiff cfnError.Timestamp b.EventTime)

/-- Relation stating `a` beats `b` weakly: higher score, or equal score and a time difference
no larger than `b`'s. -/
def WeaklyPreferred (cfnError : StackError) (a b : CloudTrailEvent) : Prop :=
  calculateMatchScore cfnError b < calculateMatchScore cfnError a ∨
  (calculateMatchScore cfnError a = calculateMatchScore cfnError b ∧
   absTimeDiff cfnError.Timestamp a.EventTime ≤
     absTimeDiff cfnError.Timestamp b.EventTime)

/-- Embedding of `GetCorrelationSummary` from correlator/correlator.go. -/
def GetCorrelationSummary (correlatedErrors : List CorrelatedError) :
    Nat × Nat × Nat :=
  (correlatedErrors.length,
   (correlatedErrors.filter (fun e => e.cloudTrailEvent.isSome)).length,
   (correlatedErrors.filter
      (fun e => e.stackError.IsGeneralServiceException)).length)

/-! ### Sample inputs used by witness theorems -/

/-- A sample stack error with an empty reason. -/
def sampleErr0 : StackError :=
  { Timestamp := 0, ResourceType := "AWS::Lambda::Function",
    LogicalResourceId := "MyFn", ResourceStatus := "CREATE_FAILED",
    ResourceStatusReason := "", EventId := "e1",
    IsGeneralServiceException := false }

/-- A sample stack error with an empty logical resource id. -/
def sampleErrNoId : StackError := { sampleErr0 with LogicalResourceId := "" }

/-- A sample CloudTrail event carrying an error code. -/
def sampleEvt0 : CloudTrailEvent :=
  { EventTime := 60, EventName := "CreateFunction",
    EventSource := "lambda.amazonaws.com", UserIdentity := none,
    ResponseElements := none, ErrorCode := "AccessDenied",
    ErrorMessage := "" }

/-- A sample configuration with a 300-tick window. -/
def cfg300 : CorrelationConfig := { TimeWindow := 300 }

/-- The correlated result for `sampleErr0` against an empty event list. -/
def sampleRes0 : CorrelatedError := correlateOne [] cfg300 sampleErr0

/-- Invariant of the `FindMatchingTrailEventWithConfig` loop after the
events in `seen` have been processed: either no candidate was seen and the
state is untouched, or the state holds the first best candidate — one that
strictly beats every earlier candidate and weakly beats every later one. -/
def FindInv (cfnError : StackError) (config : CorrelationConfig)
    (seen : List CloudTrailEvent) (st : BestState) : Prop :=
  (st = { bestMatch := none, bestScore := 0,
          bestTimeDiff := config.TimeWindow + 1 } ∧
    ∀ e ∈ seen, ¬ IsCandidate cfnError config e) ∨
  (∃ b pre post,
    st = { bestMatch := some b,
           bestScore := calculateMatchScore cfnError b,
           bestTimeDiff := absTimeDiff cfnError.Timestamp b.EventTime } ∧
    seen = pre ++ b :: post ∧ IsCandidate cfnError config b ∧
    (∀ e ∈ pre, IsCandidate cfnError config e →
      StrictlyPreferred cfnError b e) ∧
    (∀ e ∈ post, IsCandidate cfnError config e →
      WeaklyPreferred cfnError b e))

/-- A far candidate event (same score as `sampleEvtNear`). -/
def sampleEvtFar : CloudTrailEvent :=
  { sampleEvt0 with EventTime := 120, EventName := "CreateA" }

/-- A near candidate event (same score as `sampleEvtFar`). -/
def sampleEvtNear : CloudTrailEvent :=
  { sampleEvt0 with EventTime := 60, EventName := "CreateB" }

/-- A Wisdom-typed failure (empty resource id, empty reason). -/
def wisdomErr : StackError :=
  { Timestamp := 0, ResourceType := "AWS::Wisdom::AIPrompt",
    LogicalResourceId := "", ResourceStatus := "CREATE_FAILED",
    ResourceStatusReason := "", EventId := "e2",
    IsGeneralServiceException := false }

/-- A qconnect-sourced audit event carrying an error code. -/
def qconnectEvt : CloudTrailEvent :=
  { EventTime := 0, EventName := "CreateAIPrompt",
    EventSource := "qconnect.amazonaws.com", UserIdentity := none,
    ResponseElements := none, ErrorCode := "AccessDeniedException",
    ErrorMessage := "" }

/-! ### Basic lemmas -/

theorem charsContains_nil (l : List Char) : charsContains [] l = true := by
  cases l <;> simp [charsContains, charsStartWith]

theorem strContains_empty_sub (s : String) : strContains s "" = true := by
  simpa [strContains] using charsContains_nil s.data

theorem correlateOne_stackError (trailEvents : List CloudTrailEvent)
    (config : CorrelationConfig) (cfnError : StackError) :
    (correlateOne trailEvents config cfnError).stackError = cfnError := by
  unfold correlateOne
  cases FindMatchingTrailEventWithConfig cfnError trailEvents config <;> rfl

/-! ### Claim C3 -/

/-- C3: `CorrelateErrorsWithConfig` returns exactly one result per input
failure, in input order (an empty failure list yields an empty result list),
and the `i`-th result's embedded stack error is the `i`-th input record
unchanged. -/
theorem correlate_cardinality_order :
    ∀ (cfnErrors : List StackError) (trailEvents : List CloudTrailEvent)
      (config : CorrelationConfig),
    (CorrelateErrorsWithConfig cfnErrors trailEvents config).length
        = cfnErrors.length ∧
    ∀ i : Nat,
      ((CorrelateErrorsWithConfig cfnErrors trailEvents config).get? i).map
          CorrelatedError.stackError = cfnErrors.get? i := by
  intro cfnErrors trailEvents config
  refine ⟨List.length_map _ _, ?_⟩
  intro i
  rw [CorrelateErrorsWithConfig, List.get?_map]
  cases cfnErrors.get? i with
  | none => rfl
  | some e => simp [correlateOne_stackError]

/-! ### Claim C5 -/

/-- C5: when no matching trail event is selected for a failure (in
particular whenever the event list is empty), the produced result has no
matched event and its detailed message is exactly the failure's reason,
empty reason included. -/
theorem correlate_noMatch_fallback :
    ∀ (cfnErrors : List StackError) (trailEvents : List CloudTrailEvent)
      (config : CorrelationConfig) (i : Nat) (r : CorrelatedError),
    (CorrelateErrorsWithConfig cfnErrors trailEvents config).get? i = some r →
    FindMatchingTrailEventWithConfig r.stackError trailEvents config = none →
    r.cloudTrailEvent = none ∧
    r.detailedMessage = r.stackError.ResourceStatusReason := by
  intro cfnErrors trailEvents config i r hget hfind
  rw [CorrelateErrorsWithConfig, List.get?_map] at hget
  cases hc : cfnErrors.get? i with
  | none => rw [hc] at hget; exact absurd hget (by simp)
  | some e =>
    rw [hc] at hget
    have hr : correlateOne trailEvents config e = r := by
      simpa using hget
    subst hr
    rw [correlateOne_stackError] at hfind
    unfold correlateOne
    rw [hfind]
    exact ⟨rfl, rfl⟩

/-- Witness for C5: one failure with empty reason against an empty event
list. -/
theorem correlate_noMatch_fallback_witness :
    sampleRes0.cloudTrailEvent = none ∧
    sampleRes0.detailedMessage = sampleRes0.stackError.ResourceStatusReason :=
  correlate_noMatch_fallback [sampleErr0] [] cfg300 0 sampleRes0
    (by rfl) (by rfl)

/-! ### Claim C10 -/

/-- C10: a failure with an empty logical resource id never receives the +3
resource-identifier bonus — even though the empty string is a substring of
every string — so its score against any event is at most 3. -/
theorem emptyResourceId_maxScore :
    (∀ s : String, strContains s "" = true) ∧
    ∀ (cfnError : StackError) (trailEvent : CloudTrailEvent),
    cfnError.LogicalResourceId = "" →
    matchesResourceIdentifier cfnError trailEvent = false ∧
    calculateMatchScore cfnError trailEvent ≤ 3 := by
  refine ⟨strContains_empty_sub, ?_⟩
  intro cfnError trailEvent h
  have hm : matchesResourceIdentifier cfnError trailEvent = false := by
    unfold matchesResourceIdentifier
    rw [if_pos h]
  refine ⟨hm, ?_⟩
  simp only [calculateMatchScore, hm, Bool.false_eq_true, if_false]
  split_ifs <;> omega

/-- Witness for C10: a concrete empty-id failure scored against a concrete
event. -/
theorem emptyResourceId_maxScore_witness :
    matchesResourceIdentifier sampleErrNoId sampleEvt0 = false ∧
    calculateMatchScore sampleErrNoId sampleEvt0 ≤ 3 :=
  emptyResourceId_maxScore.2 sampleErrNoId sampleEvt0 rfl

/-! ### Claim C8 -/

/-- C8: `IsGeneralServiceException` is false on an empty reason and
otherwise true exactly when the lower-cased reason contains one of the five
fixed lower-case patterns; with the three concrete instances from the
spec. -/
theorem isGenericFailure_characterization :
    (∀ err : StackError,
      (err.ResourceStatusReason = "" → IsGeneralServiceException err = false) ∧
      (IsGeneralServiceException err = true ↔
        err.ResourceStatusReason ≠ "" ∧
        (strContains (strToLower err.ResourceStatusReason)
            "generalserviceexception" = true ∨
         strContains (strToLower err.ResourceStatusReason)
            "general service exception" = true ∨
         strContains (strToLower err.ResourceStatusReason)
            "internal failure" = true ∨
         strContains (strToLower err.ResourceStatusReason)
            "internalfailure" = true ∨
         strContains (strToLower err.ResourceStatusReason)
            "service returned error" = true))) ∧
    IsGeneralServiceException
      { sampleErr0 with ResourceStatusReason := "Internal Failure occurred" }
        = true ∧
    IsGeneralServiceException
      { sampleErr0 with
        ResourceStatusReason := "ROLLBACK_COMPLETE because policy X denied" }
        = false ∧
    IsGeneralServiceException sampleErr0 = false := by
  refine ⟨?_, by decide, by decide, by decide⟩
  intro err
  constructor
  · intro h; simp [IsGeneralServiceException, h]
  · by_cases h : err.ResourceStatusReason = ""
    · simp [IsGeneralServiceException, h]
    · have e1 : strToLower "GeneralServiceException" =
          "generalserviceexception" := by decide
      have e2 : strToLower "General Service Exception" =
          "general service exception" := by decide
      have e3 : strToLower "Internal Failure" = "internal failure" := by decide
      have e4 : strToLower "InternalFailure" = "internalfailure" := by decide
      have e5 : strToLower "Service returned error" =
          "service returned error" := by decide
      unfold IsGeneralServiceException generalServiceExceptionPatterns
      simp only [if_neg h, List.any_cons, List.any_nil, Bool.or_eq_true,
        e1, e2, e3, e4, e5, Bool.or_false]
      tauto

/-- Witness for C8: the empty-reason instance, via the characterization. -/
theorem isGenericFailure_characterization_witness :
    IsGeneralServiceException sampleErr0 = false :=
  (isGenericFailure_characterization.1 sampleErr0).1 rfl

/-! ### Message extractor refinement (claims C6, C7) -/

theorem tryStr_eq_ite (m : List (String × Jval)) (k : String) :
    tryStr m k =
      if specStrAt m k = "" then none else some (specStrAt m k) := by
  unfold tryStr specStrAt jAsString
  cases List.lookup k m with
  | none => simp
  | some v =>
    cases v with
    | str t => by_cases h : t = "" <;> simp [h]
    | num n => simp
    | bool b => simp
    | obj fs => simp
    | arr l => simp
    | null => simp

theorem tryStr_none_iff (m : List (String × Jval)) (k : String) :
    tryStr m k = none ↔ specStrAt m k = "" := by
  rw [tryStr_eq_ite]
  by_cases h : specStrAt m k = "" <;> simp [h]

theorem tryStr_some_iff (m : List (String × Jval)) (k s : String) :
    tryStr m k = some s ↔ specStrAt m k = s ∧ s ≠ "" := by
  rw [tryStr_eq_ite]
  by_cases h : specStrAt m k = ""
  · rw [if_pos h]
    constructor
    · intro hc; cases hc
    · rintro ⟨h1, hne⟩
      exact absurd (h1.symm.trans h) hne
  · rw [if_neg h]
    constructor
    · intro hc
      have h1 : specStrAt m k = s := Option.some.inj hc
      exact ⟨h1, fun hs => h (h1.trans hs)⟩
    · rintro ⟨rfl, _⟩
      rfl

theorem jAsObj_lookup_spec (re : List (String × Jval)) (ko k : String) :
    specNestedStrAt re ko k =
      match jAsObj (List.lookup ko re) with
      | some eo => specStrAt eo k
      | none => "" := by
  unfold specNestedStrAt jAsObj
  cases List.lookup ko re with
  | none => rfl
  | some v => cases v <;> rfl

/-- The code's extractor agrees everywhere with the spec's priority chain. -/
theorem extract_eq_spec (o : Option (List (String × Jval))) :
    extractMessageFromResponseElements o = extractMessageSpec o := by
  cases o with
  | none => rfl
  | some re =>
    simp only [extractMessageFromResponseElements, extractMessageSpec]
    cases ht1 : tryStr re "message" with
    | some s =>
      obtain ⟨hs, hne⟩ := (tryStr_some_iff re "message" s).mp ht1
      simp [firstNonEmpty, hs, hne]
    | none =>
      have hc1 : specStrAt re "message" = "" :=
        (tryStr_none_iff re "message").mp ht1
      cases ht2 : tryStr re "Message" with
      | some s =>
        obtain ⟨hs, hne⟩ := (tryStr_some_iff re "Message" s).mp ht2
        simp [firstNonEmpty, hc1, hs, hne]
      | none =>
        have hc2 : specStrAt re "Message" = "" :=
          (tryStr_none_iff re "Message").mp ht2
        cases hE : jAsObj (List.lookup "error" re) with
        | none =>
          have hn1 : specNestedStrAt re "error" "message" = "" := by
            rw [jAsObj_lookup_spec, hE]
          have hn2 : specNestedStrAt re "error" "Message" = "" := by
            rw [jAsObj_lookup_spec, hE]
          cases hE2 : jAsObj (List.lookup "Error" re) with
          | none =>
            have hn3 : specNestedStrAt re "Error" "message" = "" := by
              rw [jAsObj_lookup_spec, hE2]
            have hn4 : specNestedStrAt re "Error" "Message" = "" := by
              rw [jAsObj_lookup_spec, hE2]
            simp [firstNonEmpty, hc1, hc2, hn1, hn2, hn3, hn4]
          | some eo =>
            have hn3 : specNestedStrAt re "Error" "message" =
                specStrAt eo "message" := by rw [jAsObj_lookup_spec, hE2]
            have hn4 : specNestedStrAt re "Error" "Message" =
                specStrAt eo "Message" := by rw [jAsObj_lookup_spec, hE2]
            cases ht3 : tryStr eo "message" with
            | some s =>
              obtain ⟨hs, hne⟩ := (tryStr_some_iff eo "message" s).mp ht3
              simp [firstNonEmpty, hc1, hc2, hn1, hn2, hn3, hn4, ht3, hs, hne]
            | none =>
              have h3 : specStrAt eo "message" = "" :=
                (tryStr_none_iff eo "message").mp ht3
              cases ht4 : tryStr eo "Message" with
              | some s =>
                obtain ⟨hs, hne⟩ := (tryStr_some_iff eo "Message" s).mp ht4
                simp [firstNonEmpty, hc1, hc2, hn1, hn2, hn3, hn4, ht3, ht4, h3, hs, hne]
              | none =>
                have h4 : specStrAt eo "Message" = "" :=
                  (tryStr_none_iff eo "Message").mp ht4
                simp [firstNonEmpty, hc1, hc2, hn1, hn2, hn3, hn4, ht3, ht4, h3, h4]
        | some eo =>
          have hn1 : specNestedStrAt re "error" "message" =
              specStrAt eo "message" := by rw [jAsObj_lookup_spec, hE]
          have hn2 : specNestedStrAt re "error" "Message" =
              specStrAt eo "Message" := by rw [jAsObj_lookup_spec, hE]
          cases ht3 : tryStr eo "message" with
          | some s =>
            obtain ⟨hs, hne⟩ := (tryStr_some_iff eo "message" s).mp ht3
            simp [firstNonEmpty, hc1, hc2, hn1, hn2, ht3, hs, hne]
          | none =>
            have h3 : specStrAt eo "message" = "" :=
              (tryStr_none_iff eo "message").mp ht3
            cases ht4 : tryStr eo "Message" with
            | some s =>
              obtain ⟨hs, hne⟩ := (tryStr_some_iff eo "Message" s).mp ht4
              simp [firstNonEmpty, hc1, hc2, hn1, hn2, ht3, ht4, h3, hs, hne]
            | none =>
              have h4 : specStrAt eo "Message" = "" :=
                (tryStr_none_iff eo "Message").mp ht4
              cases hE2 : jAsObj (List.lookup "Error" re) with
              | none =>
                have hn3 : specNestedStrAt re "Error" "message" = "" := by
                  rw [jAsObj_lookup_spec, hE2]
                have hn4 : specNestedStrAt re "Error" "Message" = "" := by
                  rw [jAsObj_lookup_spec, hE2]
                simp [firstNonEmpty, hc1, hc2, hn1, hn2, ht3, ht4, h3, h4, hn3, hn4]
              | some eo2 =>
                have hn3 : specNestedStrAt re "Error" "message" =
                    specStrAt eo2 "message" := by rw [jAsObj_lookup_spec, hE2]
                have hn4 : specNestedStrAt re "Error" "Message" =
                    specStrAt eo2 "Message" := by rw [jAsObj_lookup_spec, hE2]
                cases ht5 : tryStr eo2 "message" with
                | some s =>
                  obtain ⟨hs, hne⟩ := (tryStr_some_iff eo2 "message" s).mp ht5
                  simp [firstNonEmpty, hc1, hc2, hn1, hn2, ht3, ht4, ht5, h3, h4,
                    hn3, hn4, hs, hne]
                | none =>
                  have h5 : specStrAt eo2 "message" = "" :=
                    (tryStr_none_iff eo2 "message").mp ht5
                  cases ht6 : tryStr eo2 "Message" with
                  | some s =>
                    obtain ⟨hs, hne⟩ :=
                      (tryStr_some_iff eo2 "Message" s).mp ht6
                    simp [firstNonEmpty, hc1, hc2, hn1, hn2, ht3, ht4, ht5, ht6,
                      h3, h4, hn3, hn4, h5, hs, hne]
                  | none =>
                    have h6 : specStrAt eo2 "Message" = "" :=
                      (tryStr_none_iff eo2 "Message").mp ht6
                    simp [firstNonEmpty, hc1, hc2, hn1, hn2, ht3, ht4, ht5, ht6,
                      h3, h4, hn3, hn4, h5, h6]

/-! ### Claim C6 -/

/-- C6: the extractor returns the first non-empty string in the fixed
priority order `message`, `Message`, `error.message`, `error.Message`,
`Error.message`, `Error.Message` (empty string when none is found), and in
particular a non-empty top-level `message` always wins. -/
theorem extractMessage_priority :
    (∀ payload : Option (List (String × Jval)),
      extractMessageFromResponseElements payload = extractMessageSpec payload) ∧
    ∀ (re : List (String × Jval)) (m : String),
      List.lookup "message" re = some (Jval.str m) → m ≠ "" →
      extractMessageFromResponseElements (some re) = m := by
  refine ⟨extract_eq_spec, ?_⟩
  intro re m hm hne
  rw [extract_eq_spec]
  have hc1 : specStrAt re "message" = m := by
    unfold specStrAt
    rw [hm]
  simp [extractMessageSpec, firstNonEmpty, hc1, hne]

/-- Witness for C6: both a top-level `message` and a nested `error.message`
present and non-empty; the top-level one is returned. -/
theorem extractMessage_priority_witness :
    extractMessageFromResponseElements
      (some [("message", Jval.str "top"),
             ("error", Jval.obj [("message", Jval.str "nested")])]) = "top" :=
  extractMessage_priority.2 _ "top" rfl (by decide)

/-! ### Claim C7 -/

/-- C7: the extractor is total and treats type mismatches as not-found: it
returns `""` on an absent payload, skips a number bound at `"message"` and
proceeds to the next candidate, skips a primitive bound at `"error"` and
proceeds to the `"Error"` object, and returns `""` when no candidate
matches. -/
theorem extractMessage_mismatch_safe :
    extractMessageFromResponseElements none = "" ∧
    (∀ (re : List (String × Jval)) (n : Int) (m : String),
      List.lookup "message" re = some (Jval.num n) →
      List.lookup "Message" re = some (Jval.str m) → m ≠ "" →
      extractMessageFromResponseElements (some re) = m) ∧
    (∀ (re : List (String × Jval)) (s : String),
      List.lookup "error" re = some (Jval.str s) →
      specStrAt re "message" = "" → specStrAt re "Message" = "" →
      extractMessageFromResponseElements (some re) =
        firstNonEmpty [specNestedStrAt re "Error" "message",
                       specNestedStrAt re "Error" "Message"]) ∧
    (∀ re : List (String × Jval),
      specStrAt re "message" = "" → specStrAt re "Message" = "" →
      specNestedStrAt re "error" "message" = "" →
      specNestedStrAt re "error" "Message" = "" →
      specNestedStrAt re "Error" "message" = "" →
      specNestedStrAt re "Error" "Message" = "" →
      extractMessageFromResponseElements (some re) = "") := by
  refine ⟨rfl, ?_, ?_, ?_⟩
  · intro re n m hm hM hne
    rw [extract_eq_spec]
    have hc1 : specStrAt re "message" = "" := by
      unfold specStrAt
      rw [hm]
    have hc2 : specStrAt re "Message" = m := by
      unfold specStrAt
      rw [hM]
    simp [extractMessageSpec, firstNonEmpty, hc1, hc2, hne]
  · intro re s hs h1 h2
    rw [extract_eq_spec]
    have hn1 : specNestedStrAt re "error" "message" = "" := by
      unfold specNestedStrAt
      rw [hs]
    have hn2 : specNestedStrAt re "error" "Message" = "" := by
      unfold specNestedStrAt
      rw [hs]
    simp [extractMessageSpec, firstNonEmpty, h1, h2, hn1, hn2]
  · intro re h1 h2 h3 h4 h5 h6
    rw [extract_eq_spec]
    simp [extractMessageSpec, firstNonEmpty, h1, h2, h3, h4, h5, h6]

/-- Witness for C7: `"message"` bound to a number is skipped and the
capitalized `"Message"` candidate is returned. -/
theorem extractMessage_mismatch_safe_witness :
    extractMessageFromResponseElements
      (some [("message", Jval.num 5), ("Message", Jval.str "hi")]) = "hi" :=
  extractMessage_mismatch_safe.2.1 _ 5 "hi" rfl rfl (by decide)

/-! ### Claim C9 -/

theorem append_ne_empty (c : String) : ("Error code: " ++ c) ≠ "" := by
  intro h
  have hd : ("Error code: " ++ c).data = "".data := congrArg String.data h
  rw [String.data_append] at hd
  exact absurd (List.append_eq_nil.mp hd).1 (by decide)

/-- Lemma: `extractDetailedMessage` is non-empty exactly when the event offers some
message source: error message, extractable payload message, or error code. -/
theorem extractDetailedMessage_ne_iff (event : CloudTrailEvent) :
    extractDetailedMessage event ≠ "" ↔
      (event.ErrorMessage ≠ "" ∨
       extractMessageFromResponseElements event.ResponseElements ≠ "" ∨
       event.ErrorCode ≠ "") := by
  unfold extractDetailedMessage
  by_cases hem : event.ErrorMessage = ""
  · cases hre : event.ResponseElements with
    | none =>
      by_cases hec : event.ErrorCode = "" <;>
        simp [hem, hec, hre, extractMessageFromResponseElements,
          append_ne_empty]
    | some re =>
      by_cases hmsg : extractMessageFromResponseElements (some re) = ""
      · by_cases hec : event.ErrorCode = "" <;>
          simp [hem, hec, hre, hmsg, append_ne_empty]
      · simp [hem, hre, hmsg]
  · simp [hem]

/-- C9: a produced result's detailed message is non-empty whenever the
failure's reason is non-empty or the matched event yields a non-empty
message (via error message, payload extraction, or error code); the message
defaults to the reason and is only overwritten by a non-empty extracted
message. -/
theorem correlate_detailedMessage_invariant :
    ∀ (cfnErrors : List StackError) (trailEvents : List CloudTrailEvent)
      (config : CorrelationConfig) (r : CorrelatedError),
    r ∈ CorrelateErrorsWithConfig cfnErrors trailEvents config →
    ((r.stackError.ResourceStatusReason ≠ "" ∨
      (∃ ev, r.cloudTrailEvent = some ev ∧
        (ev.ErrorMessage ≠ "" ∨
         extractMessageFromResponseElements ev.ResponseElements ≠ "" ∨
         ev.ErrorCode ≠ ""))) →
     r.detailedMessage ≠ "") ∧
    (r.detailedMessage = r.stackError.ResourceStatusReason ∨
     (∃ ev, r.cloudTrailEvent = some ev ∧
       r.detailedMessage = extractDetailedMessage ev ∧
       extractDetailedMessage ev ≠ "")) := by
  intro cfnErrors trailEvents config r hr
  rw [CorrelateErrorsWithConfig, List.mem_map] at hr
  obtain ⟨e, _, he⟩ := hr
  subst he
  unfold correlateOne
  cases hf : FindMatchingTrailEventWithConfig e trailEvents config with
  | none =>
    refine ⟨?_, Or.inl rfl⟩
    rintro (h | ⟨ev, hev, _⟩)
    · exact h
    · cases hev
  | some ev =>
    by_cases hdm : extractDetailedMessage ev = ""
    · refine ⟨?_, Or.inl (by simp [hdm])⟩
      rintro (h | ⟨ev', hev', hsrc⟩)
      · simpa [hdm] using h
      · have hevEq : ev = ev' := by simpa using hev'
        subst hevEq
        exact absurd ((extractDetailedMessage_ne_iff ev).mpr hsrc) (by simp [hdm])
    · refine ⟨?_, Or.inr ⟨ev, by simp [hdm], by simp [hdm], hdm⟩⟩
      intro _
      simp [hdm]

/-- Witness for C9: a failure with empty reason matched against an event
whose error code is non-empty yields a non-empty detailed message. -/
theorem correlate_detailedMessage_invariant_witness :
    (correlateOne [sampleEvt0] cfg300 sampleErr0).detailedMessage ≠ "" :=
  (correlate_detailedMessage_invariant [sampleErr0] [sampleEvt0] cfg300
      (correlateOne [sampleEvt0] cfg300 sampleErr0)
      (by simp [CorrelateErrorsWithConfig])).1
    (Or.inr ⟨sampleEvt0, by rfl, Or.inr (Or.inr (by decide))⟩)

/-! ### Selection invariant (claims C2, C4) -/

theorem weak_of_strict (cfnError : StackError) (a b : CloudTrailEvent) :
    StrictlyPreferred cfnError a b → WeaklyPreferred cfnError a b := by
  unfold StrictlyPreferred WeaklyPreferred
  omega

theorem strictly_weakly_trans (cfnError : StackError)
    (a b c : CloudTrailEvent) :
    StrictlyPreferred cfnError a b → WeaklyPreferred cfnError b c →
    StrictlyPreferred cfnError a c := by
  unfold StrictlyPreferred WeaklyPreferred
  omega

theorem inv_extend (cfnError : StackError) (config : CorrelationConfig)
    (seen : List CloudTrailEvent) (st : BestState) (e : CloudTrailEvent)
    (hInv : FindInv cfnError config seen st)
    (hnc : ¬ IsCandidate cfnError config e) :
    FindInv cfnError config (seen ++ [e]) st := by
  cases hInv with
  | inl h =>
    left
    refine ⟨h.1, ?_⟩
    intro x hx
    rcases List.mem_append.mp hx with hx | hx
    · exact h.2 x hx
    · rw [List.mem_singleton.mp hx]
      exact hnc
  | inr h =>
    obtain ⟨b, pre, post, hst, hseen, hcb, hpre, hpost⟩ := h
    right
    refine ⟨b, pre, post ++ [e], hst, by rw [hseen]; simp, hcb, hpre, ?_⟩
    intro x hx hcx
    rcases List.mem_append.mp hx with hx | hx
    · exact hpost x hx hcx
    · rw [List.mem_singleton.mp hx] at hcx
      exact absurd hcx hnc

theorem findStep_inv (cfnError : StackError) (config : CorrelationConfig)
    (seen : List CloudTrailEvent) (st : BestState) (e : CloudTrailEvent)
    (hInv : FindInv cfnError config seen st) :
    FindInv cfnError config (seen ++ [e]) (findStep cfnError config st e) := by
  simp only [findStep]
  by_cases hw : absTimeDiff cfnError.Timestamp e.EventTime > config.TimeWindow
  · rw [if_pos hw]
    exact inv_extend cfnError config seen st e hInv (fun hc => by
      have := hc.1
      omega)
  · rw [if_neg hw]
    by_cases hz : calculateMatchScore cfnError e = 0
    · rw [if_pos hz]
      exact inv_extend cfnError config seen st e hInv (fun hc => by
        have := hc.2
        omega)
    · rw [if_neg hz]
      have hcand : IsCandidate cfnError config e :=
        ⟨by omega, Nat.pos_of_ne_zero hz⟩
      by_cases hupd : calculateMatchScore cfnError e > st.bestScore ∨
          (calculateMatchScore cfnError e = st.bestScore ∧
           absTimeDiff cfnError.Timestamp e.EventTime < st.bestTimeDiff)
      · rw [if_pos hupd]
        right
        refine ⟨e, seen, [], rfl, by simp, hcand, ?_, by simp⟩
        intro x hx hcx
        cases hInv with
        | inl h => exact absurd hcx (h.2 x hx)
        | inr h =>
          obtain ⟨b, pre, post, hst, hseen, hcb, hpre, hpost⟩ := h
          have hsb : StrictlyPreferred cfnError e b := by
            rw [hst] at hupd
            unfold StrictlyPreferred
            simpa using hupd
          subst hseen
          rcases List.mem_append.mp hx with hx | hx
          · exact strictly_weakly_trans cfnError e b x hsb
              (weak_of_strict cfnError b x (hpre x hx hcx))
          · rcases List.mem_cons.mp hx with rfl | hx
            · exact hsb
            · exact strictly_weakly_trans cfnError e b x hsb
                (hpost x hx hcx)
      · rw [if_neg hupd]
        cases hInv with
        | inl h =>
          exfalso
          apply hupd
          left
          rw [h.1]
          exact Nat.pos_of_ne_zero hz
        | inr h =>
          obtain ⟨b, pre, post, hst, hseen, hcb, hpre, hpost⟩ := h
          right
          refine ⟨b, pre, post ++ [e], hst, by rw [hseen]; simp, hcb, hpre, ?_⟩
          intro x hx hcx
          rcases List.mem_append.mp hx with hx | hx
          · exact hpost x hx hcx
          · rw [List.mem_singleton.mp hx]
            rw [hst] at hupd
            simp only [not_or, not_lt, not_and] at hupd
            unfold WeaklyPreferred
            omega

theorem foldl_inv (cfnError : StackError) (config : CorrelationConfig) :
    ∀ (evts seen : List CloudTrailEvent) (st : BestState),
    FindInv cfnError config seen st →
    FindInv cfnError config (seen ++ evts)
      (evts.foldl (findStep cfnError config) st) := by
  intro evts
  induction evts with
  | nil => intro seen st h; simpa using h
  | cons e rest ih =>
    intro seen st h
    rw [List.foldl_cons]
    have h3 := ih (seen ++ [e]) (findStep cfnError config st e)
      (findStep_inv cfnError config seen st e h)
    simpa using h3

theorem findMatching_inv (cfnError : StackError)
    (trailEvents : List CloudTrailEvent) (config : CorrelationConfig) :
    FindInv cfnError config trailEvents
      (trailEvents.foldl (findStep cfnError config)
        { bestMatch := none, bestScore := 0,
          bestTimeDiff := config.TimeWindow + 1 }) := by
  have h := foldl_inv cfnError config trailEvents [] _ (Or.inl ⟨rfl, by simp⟩)
  simpa using h

/-! ### Claim C2 -/

/-- C2: the selected event, when present, is an in-window positively-scored
candidate that strictly beats (higher score, or equal score and strictly
smaller time difference) every earlier candidate and weakly beats every
later one — i.e. the highest-scored candidate, ties broken by smallest
absolute time difference, then by first position in input order; when the
result is `none`, no candidate exists. -/
theorem findMatching_selection :
    ∀ (cfnError : StackError) (trailEvents : List CloudTrailEvent)
      (config : CorrelationConfig),
    (FindMatchingTrailEventWithConfig cfnError trailEvents config = none →
      ∀ e ∈ trailEvents, ¬ IsCandidate cfnError config e) ∧
    (∀ e, FindMatchingTrailEventWithConfig cfnError trailEvents config
        = some e →
      ∃ pre post, trailEvents = pre ++ e :: post ∧
        IsCandidate cfnError config e ∧
        (∀ ej ∈ pre, IsCandidate cfnError config ej →
          StrictlyPreferred cfnError e ej) ∧
        (∀ ej ∈ post, IsCandidate cfnError config ej →
          WeaklyPreferred cfnError e ej)) := by
  intro cfnError trailEvents config
  unfold FindMatchingTrailEventWithConfig
  by_cases hemp : trailEvents.isEmpty = true
  · rw [if_pos hemp]
    constructor
    · intro _ e he
      rw [List.isEmpty_iff] at hemp
      subst hemp
      cases he
    · intro e h
      cases h
  · rw [if_neg hemp]
    have hinv := findMatching_inv cfnError trailEvents config
    cases hinv with
    | inl h =>
      constructor
      · intro _ e he
        exact h.2 e he
      · intro e hsome
        rw [h.1] at hsome
        simp at hsome
    | inr h =>
      obtain ⟨b, pre, post, hst, hseen, hcb, hpre, hpost⟩ := h
      constructor
      · intro hnone
        rw [hst] at hnone
        simp at hnone
      · intro e hsome
        rw [hst] at hsome
        have hbe : b = e := by simpa using hsome
        subst hbe
        exact ⟨pre, post, hseen, hcb, hpre, hpost⟩

/-- Witness for C2: two equally-scored in-window candidates; the later-listed
but time-closer one is selected and weakly/strictly dominates as stated. -/
theorem findMatching_selection_witness :
    ∃ pre post,
      [sampleEvtFar, sampleEvtNear] = pre ++ sampleEvtNear :: post ∧
      IsCandidate sampleErr0 cfg300 sampleEvtNear ∧
      (∀ ej ∈ pre, IsCandidate sampleErr0 cfg300 ej →
        StrictlyPreferred sampleErr0 sampleEvtNear ej) ∧
      (∀ ej ∈ post, IsCandidate sampleErr0 cfg300 ej →
        WeaklyPreferred sampleErr0 sampleEvtNear ej) :=
  (findMatching_selection sampleErr0 [sampleEvtFar, sampleEvtNear] cfg300).2
    sampleEvtNear (by rfl)

/-! ### Claim C4 -/

/-- Lemma: `hasErrorInformation` holds exactly when the event has a non-empty error
code, a non-empty error message, or an extractable payload message. -/
theorem hasErrorInformation_iff (event : CloudTrailEvent) :
    hasErrorInformation event = true ↔
      (event.ErrorCode ≠ "" ∨ event.ErrorMessage ≠ "" ∨
       extractMessageFromResponseElements event.ResponseElements ≠ "") := by
  unfold hasErrorInformation
  by_cases h1 : event.ErrorCode ≠ "" ∨ event.ErrorMessage ≠ ""
  · rw [if_pos h1]
    simp only [true_iff]
    tauto
  · rw [if_neg h1]
    push_neg at h1
    cases hre : event.ResponseElements with
    | none =>
      simp [h1.1, h1.2, extractMessageFromResponseElements]
    | some re =>
      simp [h1.1, h1.2]

/-- C4: a selected match is always within the configured time window of the
failure and always carries error information (non-empty error code,
non-empty error message, or extractable payload message); events outside
the window or without error information are never selected. -/
theorem findMatching_window_and_error :
    ∀ (cfnError : StackError) (trailEvents : List CloudTrailEvent)
      (config : CorrelationConfig) (e : CloudTrailEvent),
    FindMatchingTrailEventWithConfig cfnError trailEvents config = some e →
    absTimeDiff cfnError.Timestamp e.EventTime ≤ config.TimeWindow ∧
    (e.ErrorCode ≠ "" ∨ e.ErrorMessage ≠ "" ∨
     extractMessageFromResponseElements e.ResponseElements ≠ "") := by
  intro cfnError trailEvents config e hsome
  have hcand : IsCandidate cfnError config e := by
    unfold FindMatchingTrailEventWithConfig at hsome
    by_cases hemp : trailEvents.isEmpty = true
    · rw [if_pos hemp] at hsome
      cases hsome
    · rw [if_neg hemp] at hsome
      have hinv := findMatching_inv cfnError trailEvents config
      cases hinv with
      | inl h =>
        rw [h.1] at hsome
        simp at hsome
      | inr h =>
        obtain ⟨b, _, _, hst, _, hcb, _, _⟩ := h
        rw [hst] at hsome
        have hbe : b = e := by simpa using hsome
        subst hbe
        exact hcb
  refine ⟨hcand.1, ?_⟩
  have hpos := hcand.2
  have hhe : hasErrorInformation e = true := by
    by_contra hne
    have hfalse : hasErrorInformation e = false := by
      cases hb : hasErrorInformation e
      · rfl
      · exact absurd hb hne
    simp [calculateMatchScore, hfalse] at hpos
  exact (hasErrorInformation_iff e).mp hhe

/-- Witness for C4: a concrete selected event, in-window and carrying an
error code. -/
theorem findMatching_window_and_error_witness :
    absTimeDiff sampleErr0.Timestamp sampleEvt0.EventTime ≤ cfg300.TimeWindow ∧
    (sampleEvt0.ErrorCode ≠ "" ∨ sampleEvt0.ErrorMessage ≠ "" ∨
     extractMessageFromResponseElements sampleEvt0.ResponseElements ≠ "") :=
  findMatching_window_and_error sampleErr0 [sampleEvt0] cfg300 sampleEvt0
    (by rfl)

/-! ### Claim C1 -/

/-- C1 counterexample: the Match Scorer does NOT apply the `wisdom ↦
qconnect` renaming.  For a failure typed `AWS::Wisdom::AIPrompt` against an
event sourced `qconnect.amazonaws.com` (which contains the audit-stream
token and would get the +2 bonus if the renaming were applied), the
resource-type check is false and the score stays at the base 1 — even
though the renaming does exist in the retrieval collaborator's
`extractServiceName`. -/
theorem scorer_no_renaming_counterexample :
    matchesResourceType wisdomErr qconnectEvt = false ∧
    calculateMatchScore wisdomErr qconnectEvt = 1 ∧
    strContains (strToLower qconnectEvt.EventSource) "qconnect" = true ∧
    extractServiceName wisdomErr.ResourceType = "qconnect" :=
  ⟨by decide, by decide, by decide, by decide⟩

/-- C1 amended: the known `wisdom ↦ qconnect` renaming is applied only in
the audit-event retrieval collaborator (`extractServiceName`, used with
`matchesService` to pre-filter fetched events), not in the Match Scorer:
for every Wisdom-typed failure and every event whose lower-cased source
contains `qconnect` but not `wisdom`, the collaborator's service filter
accepts the event while `matchesResourceType` awards no +2 bonus. -/
theorem scorer_no_renaming_amended :
    ∀ (cfnError : StackError) (trailEvent : CloudTrailEvent),
    cfnError.ResourceType = "AWS::Wisdom::AIPrompt" →
    strContains (strToLower trailEvent.EventSource) "qconnect" = true →
    strContains (strToLower trailEvent.EventSource) "wisdom" = false →
    matchesService trailEvent (extractServiceName cfnError.ResourceType)
        = true ∧
    matchesResourceType cfnError trailEvent = false := by
  intro cfnError trailEvent h1 h2 h3
  have hne : trailEvent.EventSource ≠ "" := by
    intro h0
    rw [h0] at h2
    exact absurd h2 (by decide)
  constructor
  · unfold matchesService
    rw [h1]
    have hsvc : extractServiceName "AWS::Wisdom::AIPrompt" = "qconnect" := by
      decide
    rw [hsvc]
    have hlq : strToLower "qconnect" = "qconnect" := by decide
    rw [hlq]
    exact h2
  · simp only [matchesResourceType, h1]
    rw [if_neg (by
      rintro (h0 | h0)
      · exact absurd h0 (by decide)
      · exact hne h0)]
    have hsplit : splitOnDoubleColon (strToLower "AWS::Wisdom::AIPrompt") =
        ["aws", "wisdom", "aiprompt"] := by decide
    rw [hsplit]
    show strContains (strToLower trailEvent.EventSource)
      (strToLower "wisdom") = false
    have hlw : strToLower "wisdom" = "wisdom" := by decide
    rw [hlw]
    exact h3

/-- Witness for the amended C1: the concrete Wisdom failure and qconnect
event. -/
theorem scorer_no_renaming_amended_witness :
    matchesService qconnectEvt (extractServiceName wisdomErr.ResourceType)
        = true ∧
    matchesResourceType wisdomErr qconnectEvt = false :=
  scorer_no_renaming_amended wisdomErr qconnectEvt rfl (by decide) (by decide)

end Cfnrc
